import Mathlib

/-!
Verification development for the Help Scout response-evaluator service.

The definitions below are a shallow embedding of the JavaScript source:
the webhook handler and signature verifier (README.md), the evaluation
section (sections/evaluation.js) with its memory-cache / in-flight
orchestration, the Google-Sheets ledger integration, the context
classifier, the result post-processor, and the content-addressed
cache-key derivation (MD5 truncated to the first 8 hex characters).

Machine integers do not occur in the source (JS numbers are used only at
small integral values and as scores); numeric values are modelled as Nat
(for the 32-bit MD5 word arithmetic, with explicit reduction mod 2 ^ 32)
and Rat (for scores, which the engine may return as non-integral
numbers).  Strings are Lean Strings; JS string operations used by the
source (toLowerCase, includes, trim, split, regex-literal replace) are
modelled explicitly on the underlying character lists.
-/

set_option maxRecDepth 4000

/-! ## JavaScript string primitives used by the source -/

/-- ASCII case folding, as applied by toLowerCase on the ASCII strings the
source compares (tags, keywords, feedback phrases). -/
def lowerChar (c : Char) : Char :=
  if 'A' ≤ c ∧ c ≤ 'Z' then Char.ofNat (c.toNat + 32) else c

def lowerList (l : List Char) : List Char := l.map lowerChar

/-- Model of JS String.prototype.toLowerCase for the ASCII data compared
by the source. -/
def lowerStr (s : String) : String := String.mk (lowerList s.data)

/-- Does the character list start with the pattern? (case-sensitive) -/
def subOccurs (pat : List Char) : List Char → Bool
  | [] => pat.isEmpty
  | c :: rest => (c :: rest).take pat.length == pat || subOccurs pat rest

/-- Model of JS String.prototype.includes (substring containment). -/
def jsIncludes (s pat : String) : Bool := subOccurs pat.data s.data

/-- Whitespace characters stripped by JS String.prototype.trim (the
whitespace actually occurring in the strings the source trims). -/
def isWsChar (c : Char) : Bool := c == ' ' || c == '\t' || c == '\n' || c == '\r'

def trimList (l : List Char) : List Char :=
  ((l.dropWhile isWsChar).reverse.dropWhile isWsChar).reverse

/-- Model of JS String.prototype.trim. -/
def trimStr (s : String) : String := String.mk (trimList s.data)

/-- Case-insensitive "the list starts with the pattern". -/
def startsWithCI (pat s : List Char) : Bool :=
  lowerList (s.take pat.length) == lowerList pat

/-- One left-to-right scan deleting every case-insensitive occurrence of
the pattern, continuing after each match in the original string: the
semantics of s.replace(/pat/gi, '') for a literal pattern.  The Nat
argument is recursion fuel; callers pass the length of the scanned list,
which suffices since every step consumes at least one character. -/
def replaceScanCI (pat : List Char) : Nat → List Char → List Char
  | _, [] => []
  | 0, s => s
  | fuel + 1, c :: rest =>
    if startsWithCI pat (c :: rest) then
      replaceScanCI pat fuel (List.drop (pat.length - 1) rest)
    else
      c :: replaceScanCI pat fuel rest

/-- Model of s.replace(/pat/gi, '') for a non-empty literal pattern. -/
def replaceAllCI (pat s : String) : String :=
  String.mk (replaceScanCI pat.data s.data.length s.data)

/-- Prefix of a string before the first occurrence of the character T:
the semantics of s.split('T')[0], as used on ISO timestamps. -/
def splitT0 (s : String) : String := String.mk (s.data.takeWhile (· ≠ 'T'))

/-- UTF-8 encoding of one character (the encoding Buffer.from and
crypto hashing apply to JS strings). -/
def utf8Bytes (c : Char) : List Nat :=
  let n := c.toNat
  if n < 128 then [n]
  else if n < 2048 then [192 + n / 64, 128 + n % 64]
  else if n < 65536 then [224 + n / 4096, 128 + n / 64 % 64, 128 + n % 64]
  else [240 + n / 262144, 128 + n / 4096 % 64, 128 + n / 64 % 64, 128 + n % 64]

/-- UTF-8 byte sequence of a string. -/
def strBytes (s : String) : List Nat := (s.data.map utf8Bytes).flatten

/-! ## MD5 (crypto.createHash('md5'))

The webhook handler derives the cache key from
crypto.createHash('md5').update(text).digest('hex').substring(0, 8).
The digest is the standard MD5 algorithm; we embed it over Nat with
explicit mod 2 ^ 32 arithmetic. -/

/-- Reduce to a 32-bit word. -/
def w32 (n : Nat) : Nat := n % 4294967296

/-- Bitwise complement on 32-bit words. -/
def bNot32 (a : Nat) : Nat := 4294967295 - a % 4294967296

/-- Left rotation of a 32-bit word. -/
def rotl32 (x s : Nat) : Nat := w32 (x % 4294967296 * 2 ^ s + x % 4294967296 / 2 ^ (32 - s))

/-- The 64 MD5 sine-derived constants. -/
def md5K : List Nat :=
  [0xd76aa478, 0xe8c7b756, 0x242070db, 0xc1bdceee,
   0xf57c0faf, 0x4787c62a, 0xa8304613, 0xfd469501,
   0x698098d8, 0x8b44f7af, 0xffff5bb1, 0x895cd7be,
   0x6b901122, 0xfd987193, 0xa679438e, 0x49b40821,
   0xf61e2562, 0xc040b340, 0x265e5a51, 0xe9b6c7aa,
   0xd62f105d, 0x02441453, 0xd8a1e681, 0xe7d3fbc8,
   0x21e1cde6, 0xc33707d6, 0xf4d50d87, 0x455a14ed,
   0xa9e3e905, 0xfcefa3f8, 0x676f02d9, 0x8d2a4c8a,
   0xfffa3942, 0x8771f681, 0x6d9d6122, 0xfde5380c,
   0xa4beea44, 0x4bdecfa9, 0xf6bb4b60, 0xbebfbc70,
   0x289b7ec6, 0xeaa127fa, 0xd4ef3085, 0x04881d05,
   0xd9d4d039, 0xe6db99e5, 0x1fa27cf8, 0xc4ac5665,
   0xf4292244, 0x432aff97, 0xab9423a7, 0xfc93a039,
   0x655b59c3, 0x8f0ccc92, 0xffeff47d, 0x85845dd1,
   0x6fa87e4f, 0xfe2ce6e0, 0xa3014314, 0x4e0811a1,
   0xf7537e82, 0xbd3af235, 0x2ad7d2bb, 0xeb86d391]

/-- The 64 MD5 per-round shift amounts. -/
def md5S : List Nat :=
  [7, 12, 17, 22, 7, 12, 17, 22, 7, 12, 17, 22, 7, 12, 17, 22,
   5, 9, 14, 20, 5, 9, 14, 20, 5, 9, 14, 20, 5, 9, 14, 20,
   4, 11, 16, 23, 4, 11, 16, 23, 4, 11, 16, 23, 4, 11, 16, 23,
   6, 10, 15, 21, 6, 10, 15, 21, 6, 10, 15, 21, 6, 10, 15, 21]

/-- Round function of MD5 (F, G, H, I by round quarter). -/
def md5F (i b c d : Nat) : Nat :=
  if i < 16 then (b &&& c) ||| (bNot32 b &&& d)
  else if i < 32 then (d &&& b) ||| (bNot32 d &&& c)
  else if i < 48 then b ^^^ c ^^^ d
  else c ^^^ (b ||| bNot32 d)

/-- Message-word index selection of MD5. -/
def md5G (i : Nat) : Nat :=
  if i < 16 then i
  else if i < 32 then (5 * i + 1) % 16
  else if i < 48 then (3 * i + 5) % 16
  else (7 * i) % 16

/-- Little-endian bytes of a number, fixed width. -/
def toLE (width n : Nat) : List Nat := (List.range width).map (fun i => n / 256 ^ i % 256)

/-- MD5 padding: a 1-bit, zeros to 56 mod 64 bytes, then the 64-bit
little-endian bit length. -/
def md5pad (msg : List Nat) : List Nat :=
  msg ++ [128] ++ List.replicate ((119 - msg.length % 64) % 64) 0 ++ toLE 8 (msg.length * 8)

/-- Split a byte list into 64-byte blocks (fuel-driven; fuel at least
the list length suffices). -/
def chunks64 : Nat → List Nat → List (List Nat)
  | _, [] => []
  | 0, _ => []
  | fuel + 1, l => l.take 64 :: chunks64 fuel (l.drop 64)

/-- The i-th little-endian 32-bit word of a 64-byte block. -/
def leWord (block : List Nat) (i : Nat) : Nat :=
  block.getD (4 * i) 0 + 256 * block.getD (4 * i + 1) 0 +
    65536 * block.getD (4 * i + 2) 0 + 16777216 * block.getD (4 * i + 3) 0

/-- One of the 64 MD5 operations on the running (a, b, c, d) state. -/
def md5Step (block : List Nat) (st : Nat × Nat × Nat × Nat) (i : Nat) : Nat × Nat × Nat × Nat :=
  let a := st.1
  let b := st.2.1
  let c := st.2.2.1
  let d := st.2.2.2
  let f := w32 (md5F i b c d + a + md5K.getD i 0 + leWord block (md5G i))
  (d, w32 (b + rotl32 f (md5S.getD i 0)), b, c)

/-- Process one 64-byte block. -/
def md5Block (st : Nat × Nat × Nat × Nat) (block : List Nat) : Nat × Nat × Nat × Nat :=
  let r := (List.range 64).foldl (md5Step block) st
  (w32 (st.1 + r.1), w32 (st.2.1 + r.2.1), w32 (st.2.2.1 + r.2.2.1), w32 (st.2.2.2 + r.2.2.2))

/-- MD5 over a byte list: the final (A, B, C, D) word state. -/
def md5Words (msg : List Nat) : Nat × Nat × Nat × Nat :=
  (chunks64 (md5pad msg).length (md5pad msg)).foldl md5Block
    (0x67452301, 0xefcdab89, 0x98badcfe, 0x10325476)

/-- The number denoted by the first 8 hex characters of the MD5 hex
digest: the digest emits word A in little-endian byte order and each
byte as two hex characters, so this is the big-endian reading of the
four little-endian bytes of A. -/
def md5First8Nat (msg : List Nat) : Nat :=
  let a := (md5Words msg).1
  a % 256 * 16777216 + a / 256 % 256 * 65536 + a / 65536 % 256 * 256 + a / 16777216 % 256

/-- Lowercase hex character of a nibble. -/
def hexChar (n : Nat) : Char :=
  if n < 10 then Char.ofNat (48 + n) else Char.ofNat (87 + n)

/-- Fixed-width big-endian hex rendering. -/
def toHexFixed : Nat → Nat → List Char
  | 0, _ => []
  | k + 1, n => hexChar (n / 16 ^ k) :: toHexFixed k (n % 16 ^ k)

/-- crypto.createHash('md5').update(text).digest('hex').substring(0, 8). -/
def md5Hex8 (text : String) : String :=
  String.mk (toHexFixed 8 (md5First8Nat (strBytes text)))

/-- Cache-key derivation of the webhook handler:
the template literal ticket.id ++ '_' ++ responseHash. -/
def deriveCacheKey (ticketId : Nat) (text : String) : String :=
  Nat.repr ticketId ++ "_" ++ md5Hex8 text

/-! ## Data model: EvaluationResult

The JSON shape produced by sections/evaluation.js: overall_score,
categories (the four fixed categories, each with score and feedback),
key_improvements, and the error field present only on failure.  Scores
are JS numbers; they are modelled as Rat since the engine may return
non-integral scores. -/

structure CategoryEvaluation where
  score : Rat
  feedback : String
deriving DecidableEq

structure EvaluationCategories where
  tone_empathy : CategoryEvaluation
  clarity_completeness : CategoryEvaluation
  standard_of_english : CategoryEvaluation
  problem_resolution : CategoryEvaluation
deriving DecidableEq

structure EvaluationResult where
  overall_score : Rat
  categories : EvaluationCategories
  key_improvements : List String
  error : Option String
deriving DecidableEq

/-- The synthetic EvaluationResult built in the catch branch of
evaluateResponse (sections/evaluation.js lines 350-363) when the OpenAI
call fails or times out.  The errorMessage argument stands for
error.response?.data?.error?.message || error.message. -/
def evaluateResponseErrorResult (errorMessage : String) : EvaluationResult :=
  { overall_score := 0
    categories :=
      { tone_empathy := { score := 0, feedback := "Unable to evaluate - API error" }
        clarity_completeness := { score := 0, feedback := "Unable to evaluate - API error" }
        standard_of_english := { score := 0, feedback := "Unable to evaluate - API error" }
        problem_resolution := { score := 0, feedback := "Unable to evaluate - API error" } }
    key_improvements := ["OpenAI API error occurred - check logs for details"]
    error := some errorMessage }

/-- The zod schema of schemas/evaluation.js (reproduced in
SETUP-GUIDE.md): CategoryDetailSchema requires score between 1 and 10,
EvaluationSchema additionally overall_score in [1, 10] and 1 to 5
key_improvements. -/
def evaluationSchemaValid (e : EvaluationResult) : Prop :=
  1 ≤ e.overall_score ∧ e.overall_score ≤ 10 ∧
  1 ≤ e.categories.tone_empathy.score ∧ e.categories.tone_empathy.score ≤ 10 ∧
  1 ≤ e.categories.clarity_completeness.score ∧ e.categories.clarity_completeness.score ≤ 10 ∧
  1 ≤ e.categories.standard_of_english.score ∧ e.categories.standard_of_english.score ≤ 10 ∧
  1 ≤ e.categories.problem_resolution.score ∧ e.categories.problem_resolution.score ≤ 10 ∧
  1 ≤ e.key_improvements.length ∧ e.key_improvements.length ≤ 5

/-! ## Ticket data and context classification -/

/-- A cell value as stored in / returned by the Google Sheets ledger and
as passed around untyped JS values (ticket ids, agent ids).  undefinedCell
models a missing (undefined) array entry. -/
inductive CellValue
  | str (s : String)
  | num (q : Rat)
  | undefinedCell
deriving DecidableEq

/-- The fields of the webhook ticket object the embedded code reads:
ticket.id (a number, per webhookSchema), ticket.number, ticket.tags and
ticket.subject. -/
structure Ticket where
  id : Rat
  number : CellValue
  tags : List String
  subject : Option String
deriving DecidableEq

/-- Shape of config/ticket-classification.json as consumed by
sections/evaluation.js (the keyword lists themselves are deployment
configuration; every theorem quantifies over them). -/
structure ServicesConfig where
  keywords : List String
  context_note : String
deriving DecidableEq

structure PresalesConfig where
  keywords : List String
  subject_keywords : List String
  context_note : String
deriving DecidableEq

structure InvestigatingConfig where
  phrases : List String
  context_note : String
deriving DecidableEq

structure TicketClassification where
  services : ServicesConfig
  presales : PresalesConfig
  investigating : InvestigatingConfig
deriving DecidableEq

/-- tags.some(tag => config.services.keywords.some(keyword =>
tag.toLowerCase().includes(keyword))) — the services test, written
identically in getContextNote and validateEvaluation. -/
def isServicesTag (config : TicketClassification) (tags : List String) : Bool :=
  tags.any fun tag =>
    config.services.keywords.any fun keyword => jsIncludes (lowerStr tag) keyword

/-- The presales test of getContextNote: a tag-keyword match, or (for a
truthy subject) a subject-keyword match. -/
def isPresalesTicketB (config : TicketClassification) (ticketData : Ticket) : Bool :=
  (ticketData.tags.any fun tag =>
    config.presales.keywords.any fun keyword => jsIncludes (lowerStr tag) keyword) ||
  (match ticketData.subject with
   | some subj =>
       subj != "" &&
         config.presales.subject_keywords.any fun keyword =>
           jsIncludes (lowerStr subj) keyword
   | none => false)

/-- The investigating test of getContextNote: a case-insensitive phrase
match within the cleaned response text. -/
def isInvestigatingB (config : TicketClassification) (cleanText : String) : Bool :=
  config.investigating.phrases.any fun phrase =>
    jsIncludes (lowerStr cleanText) (lowerStr phrase)

/-- EvaluationSection.getContextNote (sections/evaluation.js lines
389-430).  ticketData?.tags || [] is the tags list; the subject test is
guarded by the truthiness of ticket.subject. -/
def getContextNote (config : TicketClassification) (ticketData : Ticket)
    (cleanText : String) : String :=
  let isServicesTicket := isServicesTag config ticketData.tags
  let isPresalesTicket := isPresalesTicketB config ticketData
  let isInvestigating := isInvestigatingB config cleanText
  if isServicesTicket then config.services.context_note
  else if isPresalesTicket then config.presales.context_note
  else if isInvestigating then config.investigating.context_note
  else ""

/-! ## Result post-processor: validateEvaluation -/

/-- EvaluationSection.validateEvaluation (sections/evaluation.js lines
435-478): contradiction removal on the resolution feedback, the
services tone floor, and the improvement-list cleanup, applied in that
order to the mutable evaluation object. -/
def validateEvaluation (ticketClassification : TicketClassification)
    (evaluation : EvaluationResult) (responseText : String) (ticketData : Ticket) :
    EvaluationResult :=
  let _ := responseText
  let clarityFeedback := evaluation.categories.clarity_completeness.feedback
  let resolutionFeedback := evaluation.categories.problem_resolution.feedback
  let e1 :=
    if jsIncludes (lowerStr clarityFeedback) "concise" &&
        jsIncludes (lowerStr resolutionFeedback) "more detail" then
      { evaluation with
        categories :=
          { evaluation.categories with
            problem_resolution :=
              { evaluation.categories.problem_resolution with
                feedback := trimStr (replaceAllCI "provide more detail" resolutionFeedback) } } }
    else evaluation
  let e2 :=
    if isServicesTag ticketClassification ticketData.tags then
      { e1 with
        categories :=
          { e1.categories with
            tone_empathy :=
              { score := max e1.categories.tone_empathy.score 7
                feedback := "Services team communication - standard tone requirements adjusted" } } }
    else e1
  let cleaned := e2.key_improvements.filter fun imp =>
    5 ≤ imp.data.length &&
    !(jsIncludes (lowerStr imp) "continue" && jsIncludes (lowerStr imp) "good") &&
    lowerStr imp != "no recommendations"
  { e2 with key_improvements := if cleaned.isEmpty then ["No recommendations"] else cleaned }

/-! ## Google Sheets ledger

The ledger row layout written by saveToGoogleSheets and read back by
checkGoogleSheets (sections/evaluation.js lines 143-200 and 483-536).
A sheet is a list of rows in append order; checkGoogleSheets scans from
the last row backward. -/

/-- Decimal rendering of an integer, as JS String(...) renders integral
numbers. -/
def intRender (i : Int) : String :=
  match i with
  | .ofNat m => Nat.repr m
  | .negSucc m => "-" ++ Nat.repr (m + 1)

/-- JS String(value) for the values occurring in ledger cells.  Integral
numbers render exactly as in JS; non-integral rationals (which no claim
exercises) are rendered as num/den. -/
def jsStringOfCell : CellValue → String
  | .str s => s
  | .num q => if q.den == 1 then intRender q.num else intRender q.num ++ "/" ++ Nat.repr q.den
  | .undefinedCell => "undefined"

/-- JS truthiness of a cell value. -/
def jsTruthy : CellValue → Bool
  | .str s => s != ""
  | .num q => q != 0
  | .undefinedCell => false

def isDigitChar (c : Char) : Bool := '0' ≤ c && c ≤ '9'

def digitsToNat (ds : List Char) : Nat :=
  ds.foldl (fun acc c => acc * 10 + (c.toNat - 48)) 0

/-- JS parseFloat on the decimal strings occurring in ledger cells
(sign, integer part, optional fraction); none models NaN. -/
def parseLeadingFloat (s : String) : Option Rat :=
  let (sign, l) : Rat × List Char :=
    match s.data with
    | '-' :: t => (-1, t)
    | '+' :: t => (1, t)
    | t => (1, t)
  let ip := l.takeWhile isDigitChar
  let rest := l.dropWhile isDigitChar
  let fp :=
    match rest with
    | '.' :: t => t.takeWhile isDigitChar
    | _ => []
  if ip.isEmpty && fp.isEmpty then none
  else some (sign * ((digitsToNat ip : Rat) + (digitsToNat fp : Rat) / 10 ^ fp.length))

/-- parseFloat applied to a cell value. -/
def parseFloatCell : CellValue → Option Rat
  | .str s => parseLeadingFloat s
  | .num q => some q
  | .undefinedCell => none

/-- parseFloat(cell) || 0 — NaN becomes 0, 0 stays 0. -/
def jsOrZero (v : CellValue) : Rat :=
  match parseFloatCell v with
  | some q => q
  | none => 0

/-- cell || '' for the feedback columns.  A falsy cell yields the empty
string; a truthy non-string cell (which the round-trip claims never
produce) is rendered via String(...). -/
def jsOrEmpty (v : CellValue) : String :=
  if jsTruthy v then jsStringOfCell v else ""

/-- row[i]; a missing entry is undefined. -/
def cellAt (row : List CellValue) (i : Nat) : CellValue := row.getD i .undefinedCell

/-- The 16-cell rowData array built by saveToGoogleSheets. -/
def evaluationRowData (timestamp : String) (ticket : Ticket) (agentId : CellValue)
    (agentName : String) (responseText : String) (evaluation : EvaluationResult) :
    List CellValue :=
  [ .str timestamp,
    .num ticket.id,
    agentId,
    .str agentName,
    .num evaluation.overall_score,
    .num evaluation.categories.tone_empathy.score,
    .num evaluation.categories.clarity_completeness.score,
    .num evaluation.categories.standard_of_english.score,
    .num evaluation.categories.problem_resolution.score,
    .str (String.intercalate "; " evaluation.key_improvements),
    .str responseText,
    ticket.number,
    .str evaluation.categories.tone_empathy.feedback,
    .str evaluation.categories.clarity_completeness.feedback,
    .str evaluation.categories.standard_of_english.feedback,
    .str evaluation.categories.problem_resolution.feedback ]

/-- EvaluationSection.saveToGoogleSheets: appends one row to the sheet
(the values.append call); the surrounding try/catch swallows transport
failures, which are outside this model. -/
def saveToGoogleSheets (sheet : List (List CellValue)) (timestamp : String)
    (ticket : Ticket) (agentId : CellValue) (agentName : String)
    (responseText : String) (evaluation : EvaluationResult) : List (List CellValue) :=
  sheet ++ [evaluationRowData timestamp ticket agentId agentName responseText evaluation]

/-- Reconstruction of an EvaluationResult from a matched ledger row
(sections/evaluation.js lines 171-192). -/
def rowToEvaluation (row : List CellValue) : EvaluationResult :=
  { overall_score := jsOrZero (cellAt row 4)
    categories :=
      { tone_empathy := { score := jsOrZero (cellAt row 5), feedback := jsOrEmpty (cellAt row 12) }
        clarity_completeness :=
          { score := jsOrZero (cellAt row 6), feedback := jsOrEmpty (cellAt row 13) }
        standard_of_english :=
          { score := jsOrZero (cellAt row 7), feedback := jsOrEmpty (cellAt row 14) }
        problem_resolution :=
          { score := jsOrZero (cellAt row 8), feedback := jsOrEmpty (cellAt row 15) } }
    key_improvements := ((jsOrEmpty (cellAt row 9)).splitOn "; ").filter (· != "")
    error := none }

/-- row[0] ? row[0].split('T')[0] : null. -/
def rowDateOf (row : List CellValue) : Option String :=
  if jsTruthy (cellAt row 0) then some (splitT0 (jsStringOfCell (cellAt row 0))) else none

/-- The row-match test of the checkGoogleSheets loop:
String(rowTicketId) === String(ticketId) && rowDate === today. -/
def rowMatches (today ticketIdString : String) (row : List CellValue) : Bool :=
  jsStringOfCell (cellAt row 1) == ticketIdString &&
    (match rowDateOf row with
     | some d => d == today
     | none => false)

/-- The backward scan (for i = rows.length - 1; i >= 0; i--): later rows
are examined first, and the first match is returned. -/
def findFromEnd (today ticketIdString : String) :
    List (List CellValue) → Option EvaluationResult
  | [] => none
  | row :: rest =>
    match findFromEnd today ticketIdString rest with
    | some e => some e
    | none => if rowMatches today ticketIdString row then some (rowToEvaluation row) else none

/-- EvaluationSection.checkGoogleSheets: today is the current date
string new Date().toISOString().split('T')[0]; transport failures
(caught and turned into null by the source) are outside this model. -/
def checkGoogleSheets (sheet : List (List CellValue)) (today : String)
    (ticketId : CellValue) : Option EvaluationResult :=
  findFromEnd today (jsStringOfCell ticketId) sheet

/-! ## Orchestrator: EvaluationSection.process and the in-flight tracker

process (sections/evaluation.js lines 107-138) runs on Node's
single-threaded event loop.  Its code is a sequence of two atomic
segments separated by the one suspension point, the awaited
checkGoogleSheets call:

  segment A (lines 111-121): memory-cache lookup, then the
    runningEvaluations membership test;
  segment B (lines 124-137): on a ledger hit, cache.set and render; on a
    miss, add the key to runningEvaluations, fire evaluateInBackground,
    and return the processing template.

The background task caches its result and,
in the finally handler, removes the key from runningEvaluations.

The render layer is abstracted: a call's outcome is either the rendered
evaluation or the processing template.  The memory cache is modelled
without its TTL/LRU eviction (no claim concerns eviction); cache.set is
a shadowing cons, cache.get the first association found. -/

inductive ProcessOut
  | rendered (e : EvaluationResult)
  | processingMsg
deriving DecidableEq

/-- Process-wide mutable state owned by the orchestrator, plus the
ledger and two history/process registers: dispatched records every
launch of evaluateInBackground (most recent first), activeTasks the
launched background evaluations that have not yet completed. -/
structure OrchState where
  cache : List (String × EvaluationResult)
  runningEvaluations : List String
  sheet : List (List CellValue)
  dispatched : List String
  activeTasks : List String
deriving DecidableEq

def lookupCache : List (String × EvaluationResult) → String → Option EvaluationResult
  | [], _ => none
  | (k, e) :: rest, key => if k == key then some e else lookupCache rest key

def cacheSet (cache : List (String × EvaluationResult)) (key : String)
    (e : EvaluationResult) : List (String × EvaluationResult) :=
  (key, e) :: cache

/-- Outcome of segment A of process. -/
inductive EarlyCheck
  | cachedResult (e : EvaluationResult)
  | alreadyProcessing
  | needSheetsLookup
deriving DecidableEq

/-- Segment A: the memory-cache check and the runningEvaluations check,
in source order. -/
def processEarlyCheck (st : OrchState) (cacheKey : String) : EarlyCheck :=
  match lookupCache st.cache cacheKey with
  | some e => .cachedResult e
  | none =>
    if cacheKey ∈ st.runningEvaluations then .alreadyProcessing
    else .needSheetsLookup

/-- Segment B: resumption after the awaited ledger lookup, receiving
that lookup's value. -/
def processAfterLookup (st : OrchState) (cacheKey : String)
    (sheetsEvaluation : Option EvaluationResult) : ProcessOut × OrchState :=
  match sheetsEvaluation with
  | some e => (.rendered e, { st with cache := cacheSet st.cache cacheKey e })
  | none =>
    (.processingMsg,
      { st with
        runningEvaluations := cacheKey :: st.runningEvaluations
        dispatched := cacheKey :: st.dispatched
        activeTasks := cacheKey :: st.activeTasks })

/-- A full process call executed without interleaving: segment A, the
ledger lookup, segment B. -/
def processCall (today : String) (ticketId : CellValue) (cacheKey : String)
    (st : OrchState) : ProcessOut × OrchState :=
  match processEarlyCheck st cacheKey with
  | .cachedResult e => (.rendered e, st)
  | .alreadyProcessing => (.processingMsg, st)
  | .needSheetsLookup =>
    processAfterLookup st cacheKey (checkGoogleSheets st.sheet today ticketId)

/-- Completion of a dispatched background evaluation: cache.set with the
computed result (evaluateInBackground line 214) followed by the
guaranteed finally handler removing the key from runningEvaluations
(lines 133-135).  compute gives the result the engine call settles
with; on engine failure that value is evaluateResponseErrorResult,
since evaluateResponse catches its own errors.  The ledger append
between the two is modelled by saveToGoogleSheets above and is not
scheduled here (no claim depends on its interleaving). -/
def completeBackgroundTask (compute : String → EvaluationResult) (cacheKey : String)
    (st : OrchState) : OrchState :=
  if cacheKey ∈ st.activeTasks then
    { st with
      cache := cacheSet st.cache cacheKey (compute cacheKey)
      runningEvaluations := st.runningEvaluations.erase cacheKey
      activeTasks := st.activeTasks.erase cacheKey }
  else st

/-! ### Interleaved executions

To express claims about concurrent webhook deliveries, a world holds the
orchestrator state plus the pending process calls, each at one of the
three positions the event loop can observe: about to run segment A,
suspended at the ledger await, or finished. -/

inductive CallPhase
  | ready
  | waitingSheets
  | finished (out : ProcessOut)
deriving DecidableEq

structure PendingCall where
  ticketId : CellValue
  cacheKey : String
  phase : CallPhase
deriving DecidableEq

structure World where
  st : OrchState
  calls : List PendingCall
deriving DecidableEq

/-- Advance pending call i by one atomic segment.  A call suspended at
the await resumes with the ledger lookup's value; the scenarios proved
below never mutate the sheet while a call is suspended, so evaluating
the lookup at resume time agrees with the I/O completion value. -/
def stepCall (today : String) (w : World) (i : Nat) : World :=
  match w.calls[i]? with
  | none => w
  | some call =>
    match call.phase with
    | .finished _ => w
    | .ready =>
      match processEarlyCheck w.st call.cacheKey with
      | .cachedResult e =>
        { w with calls := w.calls.set i { call with phase := .finished (.rendered e) } }
      | .alreadyProcessing =>
        { w with calls := w.calls.set i { call with phase := .finished .processingMsg } }
      | .needSheetsLookup =>
        { w with calls := w.calls.set i { call with phase := .waitingSheets } }
    | .waitingSheets =>
      let r := processAfterLookup w.st call.cacheKey
        (checkGoogleSheets w.st.sheet today call.ticketId)
      { st := r.2, calls := w.calls.set i { call with phase := .finished r.1 } }

/-- One event-loop turn: either a segment of a pending call or the
completion of a background task. -/
inductive ScheduleAction
  | runCall (i : Nat)
  | finishTask (cacheKey : String)
deriving DecidableEq

def stepWorld (today : String) (compute : String → EvaluationResult) (w : World) :
    ScheduleAction → World
  | .runCall i => stepCall today w i
  | .finishTask k => { w with st := completeBackgroundTask compute k w.st }

def runSchedule (today : String) (compute : String → EvaluationResult) (w : World)
    (actions : List ScheduleAction) : World :=
  actions.foldl (stepWorld today compute) w

/-! ## Signature verifier (validateHelpScoutSignature, README.md)

crypto HMAC-SHA1 is the external crypto primitive; the verifier's
control flow is independent of the digest's value, so the definitions
take the computed base64 signature function as an argument and every
theorem quantifies over it.  crypto.timingSafeEqual throws on buffers of
unequal length; that partiality is modelled by Option. -/

/-- crypto.timingSafeEqual on byte lists: none models the thrown
TypeError on unequal lengths. -/
def timingSafeEqual (a b : List Nat) : Option Bool :=
  if a.length = b.length then some (a == b) else none

/-- The verifier's result together with whether the timing-safe
comparison was reached. -/
structure SignatureCheck where
  valid : Bool
  timingComparisonAttempted : Bool
deriving DecidableEq

/-- JS truthiness of an optional string (an unset env var or missing
header is undefined; the empty string is also falsy). -/
def jsFalsyStr : Option String → Bool
  | none => true
  | some s => s == ""

/-- validateHelpScoutSignature (README.md): the escape hatch, the
fail-closed secret check, the missing-header check, the HMAC
computation, the length guard, and only then the timing-safe
comparison; the surrounding try/catch turns a thrown comparison into
false. -/
def validateHelpScoutSignature (disableValidation : Bool) (secret : Option String)
    (signatureHeader : Option String) (rawBody : String)
    (hmacSha1Base64 : String → String → String) : SignatureCheck :=
  if disableValidation then { valid := true, timingComparisonAttempted := false }
  else if jsFalsyStr secret then { valid := false, timingComparisonAttempted := false }
  else if jsFalsyStr signatureHeader then { valid := false, timingComparisonAttempted := false }
  else
    let signature := signatureHeader.getD ""
    let computedSignature := hmacSha1Base64 (secret.getD "") rawBody
    let signatureBuffer := strBytes signature
    let computedBuffer := strBytes computedSignature
    if signatureBuffer.length ≠ computedBuffer.length then
      { valid := false, timingComparisonAttempted := false }
    else
      match timingSafeEqual signatureBuffer computedBuffer with
      | some b => { valid := b, timingComparisonAttempted := true }
      | none => { valid := false, timingComparisonAttempted := true }

/-! ## Claim-side predicates

Propositional forms of the classifier tests, phrased the way the
specification phrases them; the theorems below relate them to the
boolean tests the code executes. -/

/-- Some tag contains a services keyword (under the code's comparison:
the lowercased tag contains the keyword verbatim). -/
def servicesMatch (config : TicketClassification) (ticketData : Ticket) : Prop :=
  ∃ tag ∈ ticketData.tags, ∃ kw ∈ config.services.keywords,
    jsIncludes (lowerStr tag) kw = true

/-- Some tag contains a presales keyword, or the (truthy) subject
contains a presales subject keyword. -/
def presalesMatch (config : TicketClassification) (ticketData : Ticket) : Prop :=
  (∃ tag ∈ ticketData.tags, ∃ kw ∈ config.presales.keywords,
    jsIncludes (lowerStr tag) kw = true) ∨
  (∃ subj, ticketData.subject = some subj ∧ subj ≠ "" ∧
    ∃ kw ∈ config.presales.subject_keywords, jsIncludes (lowerStr subj) kw = true)

/-- The response text contains an investigating phrase
(case-insensitively). -/
def investigatingMatch (config : TicketClassification) (cleanText : String) : Prop :=
  ∃ phrase ∈ config.investigating.phrases,
    jsIncludes (lowerStr cleanText) (lowerStr phrase) = true

/-- The single-flight property of the in-flight tracker, as the
specification states it, over the orchestrator state: for every cache
key at most one background evaluation is active, every active
evaluation is registered in runningEvaluations, every key was
dispatched at most once, and a dispatched key stays covered by the
in-flight set or the memory cache. -/
def SingleFlightInv (st : OrchState) : Prop :=
  ∀ k : String,
    st.activeTasks.count k ≤ 1 ∧
    (k ∈ st.activeTasks → k ∈ st.runningEvaluations) ∧
    st.dispatched.count k ≤ 1 ∧
    (k ∈ st.dispatched → k ∈ st.runningEvaluations ∨ (lookupCache st.cache k).isSome)

/-- Serialized orchestrator events: a process call executed without
interleaving, or the completion of a background evaluation. -/
inductive OrchEvent
  | webhookCall (ticketId : CellValue) (cacheKey : String)
  | taskCompletion (cacheKey : String)
deriving DecidableEq

def applyOrchEvent (today : String) (compute : String → EvaluationResult)
    (st : OrchState) : OrchEvent → OrchState
  | .webhookCall ticketId cacheKey => (processCall today ticketId cacheKey st).2
  | .taskCompletion cacheKey => completeBackgroundTask compute cacheKey st

def applyOrchEvents (today : String) (compute : String → EvaluationResult)
    (st : OrchState) (events : List OrchEvent) : OrchState :=
  events.foldl (applyOrchEvent today compute) st

/-! ## Concrete demonstration values used by witnesses and
counterexamples -/

def demoEvaluation : EvaluationResult :=
  { overall_score := 8
    categories :=
      { tone_empathy := { score := 8, feedback := "Warm and professional" }
        clarity_completeness := { score := 9, feedback := "Clear steps" }
        standard_of_english := { score := 9, feedback := "Fluent" }
        problem_resolution := { score := 7, feedback := "Actionable answer" } }
    key_improvements := ["Add a link to the relevant documentation"]
    error := none }

def emptyOrchState : OrchState :=
  { cache := [], runningEvaluations := [], sheet := [], dispatched := [], activeTasks := [] }

def demoKey : String := "42_0cc175b9"

/-- Two webhook deliveries for the same ticket and identical response
text, hence the same cache key, hitting a fresh orchestrator. -/
def twoCallsWorld : World :=
  { st := emptyOrchState
    calls :=
      [ { ticketId := .num 42, cacheKey := demoKey, phase := .ready }
      , { ticketId := .num 42, cacheKey := demoKey, phase := .ready } ] }

def emptyClassification : TicketClassification :=
  { services := { keywords := [], context_note := "" }
    presales := { keywords := [], subject_keywords := [], context_note := "" }
    investigating := { phrases := [], context_note := "" } }

def demoClassification : TicketClassification :=
  { services := { keywords := ["services"], context_note := "Services ticket - adjust tone expectations" }
    presales := { keywords := ["presales"], subject_keywords := ["quote"],
                  context_note := "Presales ticket - relax workaround expectations" }
    investigating := { phrases := ["looking into"], context_note := "Investigating phase" } }

def demoTicketServices : Ticket :=
  { id := 42, number := .num 314, tags := ["Services Team"], subject := none }

def demoTicketPlain : Ticket :=
  { id := 42, number := .num 314, tags := [], subject := none }

/-- An evaluation whose clarity feedback asks for concision while the
resolution feedback both uses the exact removable phrase and mentions
more detail a second time. -/
def contradictionEvaluation : EvaluationResult :=
  { overall_score := 7
    categories :=
      { tone_empathy := { score := 7, feedback := "Friendly" }
        clarity_completeness := { score := 7, feedback := "Try to be concise." }
        standard_of_english := { score := 8, feedback := "Good" }
        problem_resolution :=
          { score := 6, feedback := "Please provide more detail and add more detail here." } }
    key_improvements := ["Add troubleshooting steps"]
    error := none }

/-- An evaluation whose resolution feedback is exactly the removable
phrase (up to letter case). -/
def exactPhraseEvaluation : EvaluationResult :=
  { overall_score := 7
    categories :=
      { tone_empathy := { score := 7, feedback := "Friendly" }
        clarity_completeness := { score := 7, feedback := "Keep it concise" }
        standard_of_english := { score := 8, feedback := "Good" }
        problem_resolution := { score := 6, feedback := "Provide MORE Detail" } }
    key_improvements := ["Add troubleshooting steps"]
    error := none }

/-- An orchestrator state in which one background evaluation for
demoKey has been dispatched and is still active. -/
def failingTaskState : OrchState :=
  { cache := [], runningEvaluations := [demoKey], sheet := [],
    dispatched := [demoKey], activeTasks := [demoKey] }

/-! # Theorems -/

/-! ## Helper lemmas -/

/-- Sanity check of the MD5 embedding against the published digest of
the empty message (d41d8cd98f00b204e9800998ecf8427e). -/
theorem md5Hex8_empty : md5Hex8 "" = "d41d8cd9" := by decide

/-- Sanity check of the MD5 embedding against the published digest of
"a" (0cc175b9c0f1b6a831c399e269772661). -/
theorem md5Hex8_single_a : md5Hex8 "a" = "0cc175b9" := by decide

theorem jsStringOfCell_natCast (n : Nat) : jsStringOfCell (.num (n : Rat)) = Nat.repr n := by
  simp [jsStringOfCell, Rat.den_natCast, Rat.num_natCast, intRender]

theorem jsOrZero_num (q : Rat) : jsOrZero (.num q) = q := rfl

theorem jsOrEmpty_str (s : String) : jsOrEmpty (.str s) = s := by
  by_cases h : s = "" <;> simp [jsOrEmpty, jsTruthy, jsStringOfCell, h]

/-- The later-rows-first scan finds the appended row whenever it
matches, independently of the earlier sheet contents. -/
theorem findFromEnd_append_of_match (today ticketIdString : String)
    (row : List CellValue) (h : rowMatches today ticketIdString row = true) :
    ∀ rows : List (List CellValue),
      findFromEnd today ticketIdString (rows ++ [row]) = some (rowToEvaluation row) := by
  intro rows
  induction rows with
  | nil => simp [findFromEnd, h]
  | cons r rs ih => simp [findFromEnd, ih]

/-- Extracting the two facts segment A established when it falls through
to the ledger lookup. -/
theorem earlyCheck_needSheets {st : OrchState} {cacheKey : String}
    (h : processEarlyCheck st cacheKey = .needSheetsLookup) :
    lookupCache st.cache cacheKey = none ∧ cacheKey ∉ st.runningEvaluations := by
  unfold processEarlyCheck at h
  cases hl : lookupCache st.cache cacheKey with
  | some e => rw [hl] at h; simp at h
  | none =>
    rw [hl] at h
    by_cases hm : cacheKey ∈ st.runningEvaluations
    · simp [hm] at h
    · exact ⟨rfl, hm⟩

/-- cache.set never erases an existing cache entry for any key. -/
theorem lookupCache_cacheSet_isSome {cache : List (String × EvaluationResult)}
    {k : String} (key : String) (e : EvaluationResult)
    (h : (lookupCache cache k).isSome = true) :
    (lookupCache (cacheSet cache key e) k).isSome = true := by
  by_cases hk : key == k <;> simp [cacheSet, lookupCache, hk, h]

/-! ## C10 - ledger lookup id coercion -/

/-- C10: checkGoogleSheets compares String(rowTicketId) with
String(ticketId), so looking a ticket up by its numeric id and by the
decimal-string form of that id selects exactly the same rows and
returns the same result, for every sheet and every date. -/
theorem C10_lookup_id_coercion (sheet : List (List CellValue)) (today : String) (n : Nat) :
    checkGoogleSheets sheet today (.num (n : Rat)) =
      checkGoogleSheets sheet today (.str (Nat.repr n)) := by
  unfold checkGoogleSheets
  rw [show jsStringOfCell (.num (n : Rat)) = jsStringOfCell (.str (Nat.repr n)) from
    by rw [jsStringOfCell_natCast]; rfl]

/-! ## C4 - signature length-mismatch safety -/

/-- C4: with validation enabled and a configured secret, a signature
header whose byte length differs from that of the computed base64
HMAC-SHA1 signature makes validateHelpScoutSignature return false
without the timing-safe comparison ever being attempted (hence without
the comparison's length TypeError being thrown), for every value the
HMAC primitive can compute. -/
theorem C4_length_mismatch_safe (hmacSha1Base64 : String → String → String)
    (secret rawBody signature : String) (hsec : secret ≠ "")
    (hlen : (strBytes signature).length ≠ (strBytes (hmacSha1Base64 secret rawBody)).length) :
    validateHelpScoutSignature false (some secret) (some signature) rawBody hmacSha1Base64 =
      { valid := false, timingComparisonAttempted := false } := by
  have hsec' : (secret == "") = false := by simpa using hsec
  by_cases hsig : signature == ""
  · simp [validateHelpScoutSignature, jsFalsyStr, hsec', hsig]
  · simp [validateHelpScoutSignature, jsFalsyStr, hsec', hsig, hlen]

/-- Witness for C4 at concrete inputs: a 3-byte header against a
28-character computed signature. -/
theorem C4_length_mismatch_safe_witness :
    validateHelpScoutSignature false (some "shared-secret") (some "abc") "raw-body"
        (fun _ _ => "AAAAAAAAAAAAAAAAAAAAAAAAAAA=") =
      { valid := false, timingComparisonAttempted := false } :=
  C4_length_mismatch_safe (fun _ _ => "AAAAAAAAAAAAAAAAAAAAAAAAAAA=")
    "shared-secret" "raw-body" "abc" (by decide) (by decide)

/-! ## C3 - score-range invariant -/

/-- C3 counterexample: the synthetic EvaluationResult the system
produces (and then caches and persists) on engine failure carries
category score 0, which does not lie in the interval [1, 10]; the
claimed invariant fails on it. -/
theorem C3_score_range_counterexample :
    (evaluateResponseErrorResult "timeout of 60000ms exceeded").categories.tone_empathy.score = 0 ∧
    ¬ (1 ≤ (evaluateResponseErrorResult "timeout of 60000ms exceeded").categories.tone_empathy.score ∧
       (evaluateResponseErrorResult "timeout of 60000ms exceeded").categories.tone_empathy.score ≤ 10) := by
  constructor
  · rfl
  · intro h
    exact absurd (h.1) (by decide)

/-- C3 amended: every evaluation accepted by the structured-output
schema has all four category scores in [1, 10]; the synthetic failure
result instead carries the code's minimum, 0, in all four categories
(and in overall_score), below that interval. -/
theorem C3_score_range_amended :
    (∀ e : EvaluationResult, evaluationSchemaValid e →
      (1 ≤ e.categories.tone_empathy.score ∧ e.categories.tone_empathy.score ≤ 10) ∧
      (1 ≤ e.categories.clarity_completeness.score ∧ e.categories.clarity_completeness.score ≤ 10) ∧
      (1 ≤ e.categories.standard_of_english.score ∧ e.categories.standard_of_english.score ≤ 10) ∧
      (1 ≤ e.categories.problem_resolution.score ∧ e.categories.problem_resolution.score ≤ 10)) ∧
    (∀ msg : String,
      (evaluateResponseErrorResult msg).overall_score = 0 ∧
      (evaluateResponseErrorResult msg).categories.tone_empathy.score = 0 ∧
      (evaluateResponseErrorResult msg).categories.clarity_completeness.score = 0 ∧
      (evaluateResponseErrorResult msg).categories.standard_of_english.score = 0 ∧
      (evaluateResponseErrorResult msg).categories.problem_resolution.score = 0) := by
  constructor
  · intro e h
    exact ⟨⟨h.2.2.1, h.2.2.2.1⟩, ⟨h.2.2.2.2.1, h.2.2.2.2.2.1⟩,
      ⟨h.2.2.2.2.2.2.1, h.2.2.2.2.2.2.2.1⟩, ⟨h.2.2.2.2.2.2.2.2.1, h.2.2.2.2.2.2.2.2.2.1⟩⟩
  · intro msg
    exact ⟨rfl, rfl, rfl, rfl, rfl⟩

/-- Witness for C3 amended at a concrete schema-valid evaluation. -/
theorem C3_score_range_amended_witness :
    evaluationSchemaValid demoEvaluation ∧
      1 ≤ demoEvaluation.categories.tone_empathy.score := by
  refine ⟨by unfold evaluationSchemaValid; decide, ?_⟩
  exact ((C3_score_range_amended.1 demoEvaluation (by unfold evaluationSchemaValid; decide)).1).1

/-! ## C5 - failure caching -/

/-- C5: the synthetic result built when the engine call fails or times
out has all four category scores at the code's minimum (0), a single
improvement entry, and the error field set to the failure message; once
the background task completes with it, it sits in the memory cache
under the same cache key, and a subsequent process call for that key
returns the rendered cached failure with the orchestrator state
untouched - in particular without dispatching a new engine call. -/
theorem C5_failure_caching (msg today : String) (ticketId : CellValue) (cacheKey : String)
    (st : OrchState) (hmsg : msg ≠ "") (htask : cacheKey ∈ st.activeTasks) :
    (evaluateResponseErrorResult msg).categories.tone_empathy.score = 0 ∧
    (evaluateResponseErrorResult msg).categories.clarity_completeness.score = 0 ∧
    (evaluateResponseErrorResult msg).categories.standard_of_english.score = 0 ∧
    (evaluateResponseErrorResult msg).categories.problem_resolution.score = 0 ∧
    (evaluateResponseErrorResult msg).key_improvements.length = 1 ∧
    (evaluateResponseErrorResult msg).error = some msg ∧ msg ≠ "" ∧
    lookupCache
        (completeBackgroundTask (fun _ => evaluateResponseErrorResult msg) cacheKey st).cache
        cacheKey = some (evaluateResponseErrorResult msg) ∧
    processCall today ticketId cacheKey
        (completeBackgroundTask (fun _ => evaluateResponseErrorResult msg) cacheKey st) =
      (.rendered (evaluateResponseErrorResult msg),
        completeBackgroundTask (fun _ => evaluateResponseErrorResult msg) cacheKey st) := by
  have hlook : lookupCache
      (completeBackgroundTask (fun _ => evaluateResponseErrorResult msg) cacheKey st).cache
      cacheKey = some (evaluateResponseErrorResult msg) := by
    simp [completeBackgroundTask, htask, cacheSet, lookupCache]
  refine ⟨rfl, rfl, rfl, rfl, rfl, rfl, hmsg, hlook, ?_⟩
  simp [processCall, processEarlyCheck, hlook]

/-- Witness for C5 at concrete inputs. -/
theorem C5_failure_caching_witness :
    ("ECONNABORTED" ≠ "" ∧ demoKey ∈ failingTaskState.activeTasks) ∧
    lookupCache
        (completeBackgroundTask (fun _ => evaluateResponseErrorResult "ECONNABORTED") demoKey
          failingTaskState).cache demoKey =
      some (evaluateResponseErrorResult "ECONNABORTED") :=
  ⟨⟨by decide, by decide⟩,
    (C5_failure_caching "ECONNABORTED" "2025-06-01" (.num 42) demoKey failingTaskState
      (by decide) (by decide)).2.2.2.2.2.2.2.1⟩

/-! ## C9 - ledger round-trip -/

/-- C9: appending a row for a ticket and looking the same ticket id up
on the same calendar day returns an EvaluationResult whose overall
score, four category scores, and four category feedback strings equal
those appended, for every prior sheet contents. -/
theorem C9_ledger_round_trip (sheet : List (List CellValue)) (now today : String)
    (ticket : Ticket) (agentId : CellValue) (agentName responseText : String)
    (evaluation : EvaluationResult) (hnow : now ≠ "") (hsplit : splitT0 now = today) :
    ∃ r, checkGoogleSheets
        (saveToGoogleSheets sheet now ticket agentId agentName responseText evaluation)
        today (.num ticket.id) = some r ∧
      r.overall_score = evaluation.overall_score ∧
      r.categories.tone_empathy.score = evaluation.categories.tone_empathy.score ∧
      r.categories.clarity_completeness.score = evaluation.categories.clarity_completeness.score ∧
      r.categories.standard_of_english.score = evaluation.categories.standard_of_english.score ∧
      r.categories.problem_resolution.score = evaluation.categories.problem_resolution.score ∧
      r.categories.tone_empathy.feedback = evaluation.categories.tone_empathy.feedback ∧
      r.categories.clarity_completeness.feedback = evaluation.categories.clarity_completeness.feedback ∧
      r.categories.standard_of_english.feedback = evaluation.categories.standard_of_english.feedback ∧
      r.categories.problem_resolution.feedback = evaluation.categories.problem_resolution.feedback := by
  have hne : (now != "") = true := by simpa using hnow
  have hmatch : rowMatches today (jsStringOfCell (.num ticket.id))
      (evaluationRowData now ticket agentId agentName responseText evaluation) = true := by
    simp [rowMatches, rowDateOf, cellAt, evaluationRowData, jsTruthy, jsStringOfCell, hne, hsplit]
  refine ⟨rowToEvaluation (evaluationRowData now ticket agentId agentName responseText evaluation),
    ?_, ?_, ?_, ?_, ?_, ?_, ?_, ?_, ?_, ?_⟩
  · unfold checkGoogleSheets saveToGoogleSheets
    exact findFromEnd_append_of_match _ _ _ hmatch sheet
  all_goals
    simp [rowToEvaluation, cellAt, evaluationRowData, jsOrZero, parseFloatCell, jsOrEmpty_str]

/-- Witness for C9 at concrete inputs. -/
theorem C9_ledger_round_trip_witness :
    ("2025-06-01T10:30:00Z" ≠ "" ∧ splitT0 "2025-06-01T10:30:00Z" = "2025-06-01") ∧
    ∃ r, checkGoogleSheets
        (saveToGoogleSheets [] "2025-06-01T10:30:00Z" demoTicketPlain (.num 9) "Alex"
          "Thanks for reaching out" demoEvaluation)
        "2025-06-01" (.num demoTicketPlain.id) = some r ∧
      r.overall_score = demoEvaluation.overall_score :=
  ⟨⟨by decide, by decide⟩,
    have h := C9_ledger_round_trip [] "2025-06-01T10:30:00Z" "2025-06-01" demoTicketPlain
      (.num 9) "Alex" "Thanks for reaching out" demoEvaluation (by decide) (by decide)
    h.elim fun r hr => ⟨r, hr.1, hr.2.1⟩⟩

/-! ## C6 - context-classifier precedence -/

theorem isServicesTag_iff (config : TicketClassification) (ticketData : Ticket) :
    isServicesTag config ticketData.tags = true ↔ servicesMatch config ticketData := by
  simp [isServicesTag, servicesMatch, List.any_eq_true]

theorem isPresalesTicketB_iff (config : TicketClassification) (ticketData : Ticket) :
    isPresalesTicketB config ticketData = true ↔ presalesMatch config ticketData := by
  cases h : ticketData.subject with
  | none => simp [isPresalesTicketB, presalesMatch, List.any_eq_true, h]
  | some subj => simp [isPresalesTicketB, presalesMatch, List.any_eq_true, h, and_assoc]

theorem isInvestigatingB_iff (config : TicketClassification) (cleanText : String) :
    isInvestigatingB config cleanText = true ↔ investigatingMatch config cleanText := by
  simp [isInvestigatingB, investigatingMatch, List.any_eq_true]

/-- C6: getContextNote applies the ordered rule precedence - services
note whenever some tag contains a services keyword; otherwise presales
note whenever some tag contains a presales keyword or the subject
contains a presales subject keyword; otherwise investigating note
whenever the response text contains an investigating phrase
case-insensitively; otherwise the empty string. -/
theorem C6_context_precedence (config : TicketClassification) (ticketData : Ticket)
    (cleanText : String) :
    (servicesMatch config ticketData →
      getContextNote config ticketData cleanText = config.services.context_note) ∧
    (¬ servicesMatch config ticketData → presalesMatch config ticketData →
      getContextNote config ticketData cleanText = config.presales.context_note) ∧
    (¬ servicesMatch config ticketData → ¬ presalesMatch config ticketData →
      investigatingMatch config cleanText →
      getContextNote config ticketData cleanText = config.investigating.context_note) ∧
    (¬ servicesMatch config ticketData → ¬ presalesMatch config ticketData →
      ¬ investigatingMatch config cleanText →
      getContextNote config ticketData cleanText = "") := by
  have hserv : ∀ h : ¬ servicesMatch config ticketData,
      isServicesTag config ticketData.tags = false := by
    intro h
    cases hb : isServicesTag config ticketData.tags with
    | true => exact absurd ((isServicesTag_iff _ _).mp hb) h
    | false => rfl
  have hpre : ∀ h : ¬ presalesMatch config ticketData,
      isPresalesTicketB config ticketData = false := by
    intro h
    cases hb : isPresalesTicketB config ticketData with
    | true => exact absurd ((isPresalesTicketB_iff _ _).mp hb) h
    | false => rfl
  have hinv : ∀ h : ¬ investigatingMatch config cleanText,
      isInvestigatingB config cleanText = false := by
    intro h
    cases hb : isInvestigatingB config cleanText with
    | true => exact absurd ((isInvestigatingB_iff _ _).mp hb) h
    | false => rfl
  refine ⟨?_, ?_, ?_, ?_⟩
  · intro hs
    simp [getContextNote, (isServicesTag_iff _ _).mpr hs]
  · intro hs hp
    simp [getContextNote, hserv hs, (isPresalesTicketB_iff _ _).mpr hp]
  · intro hs hp hi
    simp [getContextNote, hserv hs, hpre hp, (isInvestigatingB_iff _ _).mpr hi]
  · intro hs hp hi
    simp [getContextNote, hserv hs, hpre hp, hinv hi]

/-- Witness for C6: a tag containing a services keyword selects the
services note. -/
theorem C6_context_precedence_witness :
    getContextNote demoClassification demoTicketServices "hello" =
      "Services ticket - adjust tone expectations" :=
  (C6_context_precedence demoClassification demoTicketServices "hello").1
    ⟨"Services Team", by decide, "services", by decide, by decide⟩

/-! ## C8 - services tone floor -/

/-- C8: for a ticket with a tag containing a services keyword, the
post-processed tone_empathy score equals the maximum of the original
score and 7 (hence is at least 7) and its feedback is the fixed
explanatory note; for tickets not classified as services,
validateEvaluation leaves tone_empathy unchanged. -/
theorem C8_services_tone_floor (config : TicketClassification)
    (evaluation : EvaluationResult) (responseText : String) (ticketData : Ticket) :
    (servicesMatch config ticketData →
      (validateEvaluation config evaluation responseText ticketData).categories.tone_empathy.score =
          max evaluation.categories.tone_empathy.score 7 ∧
      7 ≤ (validateEvaluation config evaluation responseText ticketData).categories.tone_empathy.score ∧
      (validateEvaluation config evaluation responseText ticketData).categories.tone_empathy.feedback =
          "Services team communication - standard tone requirements adjusted") ∧
    (¬ servicesMatch config ticketData →
      (validateEvaluation config evaluation responseText ticketData).categories.tone_empathy =
        evaluation.categories.tone_empathy) := by
  constructor
  · intro hs
    have hb : isServicesTag config ticketData.tags = true := (isServicesTag_iff _ _).mpr hs
    by_cases hc : (jsIncludes (lowerStr evaluation.categories.clarity_completeness.feedback)
        "concise" &&
        jsIncludes (lowerStr evaluation.categories.problem_resolution.feedback) "more detail") = true
    · refine ⟨?_, ?_, ?_⟩ <;> simp [validateEvaluation, hb, hc, le_max_right]
    · rw [Bool.not_eq_true] at hc
      refine ⟨?_, ?_, ?_⟩ <;> simp [validateEvaluation, hb, hc, le_max_right]
  · intro hs
    have hb : isServicesTag config ticketData.tags = false := by
      cases h : isServicesTag config ticketData.tags with
      | true => exact absurd ((isServicesTag_iff _ _).mp h) hs
      | false => rfl
    by_cases hc : (jsIncludes (lowerStr evaluation.categories.clarity_completeness.feedback)
        "concise" &&
        jsIncludes (lowerStr evaluation.categories.problem_resolution.feedback) "more detail") = true
    · simp [validateEvaluation, hb, hc]
    · rw [Bool.not_eq_true] at hc
      simp [validateEvaluation, hb, hc]

/-- Witness for C8 at a concrete services ticket. -/
theorem C8_services_tone_floor_witness :
    (validateEvaluation demoClassification demoEvaluation "" demoTicketServices).categories.tone_empathy.score =
      max demoEvaluation.categories.tone_empathy.score 7 :=
  ((C8_services_tone_floor demoClassification demoEvaluation "" demoTicketServices).1
    ⟨"Services Team", by decide, "services", by decide, by decide⟩).1

/-! ## C7 - contradiction removal -/

/-- When the scanned text is, up to case, exactly the pattern, the
left-to-right excision deletes it whole. -/
theorem replaceScanCI_all (pat : List Char) :
    ∀ l : List Char, lowerList l = lowerList pat → replaceScanCI pat l.length l = [] := by
  intro l h
  cases l with
  | nil => rfl
  | cons c rest =>
    have hlen : rest.length + 1 = pat.length := by
      have := congrArg List.length h
      simpa [lowerList] using this
    have htake : (c :: rest).take pat.length = c :: rest := by
      rw [show pat.length = (c :: rest).length from by simpa using hlen.symm]
      exact List.take_length (c :: rest)
    have hsw : startsWithCI pat (c :: rest) = true := by
      unfold startsWithCI
      rw [htake, h]
      simp
    have hd : pat.length - 1 = rest.length := by omega
    show replaceScanCI pat (rest.length + 1) (c :: rest) = []
    simp [replaceScanCI, hsw, hd, List.drop_length]

/-- C7 counterexample: an evaluation whose clarity feedback contains
"concise" and whose resolution feedback contains "provide more detail"
but mentions "more detail" again elsewhere; the post-processed
resolution feedback still contains "more detail", refuting the claim as
stated. -/
theorem C7_contradiction_removal_counterexample :
    jsIncludes (lowerStr contradictionEvaluation.categories.clarity_completeness.feedback)
        "concise" = true ∧
    jsIncludes (lowerStr contradictionEvaluation.categories.problem_resolution.feedback)
        "provide more detail" = true ∧
    jsIncludes
        (lowerStr ((validateEvaluation emptyClassification contradictionEvaluation ""
            demoTicketPlain).categories.problem_resolution.feedback))
        "more detail" = true := by
  decide

/-- C7 amended: the post-processor only excises the exact phrase
"provide more detail" (case-insensitively, left to right); the
guarantee that no "more detail" survives therefore holds when the
resolution feedback is, up to letter case, exactly that phrase: the
cleaned feedback is then empty and contains no "more detail". -/
theorem C7_contradiction_removal_amended (config : TicketClassification)
    (evaluation : EvaluationResult) (responseText : String) (ticketData : Ticket)
    (hclar : jsIncludes (lowerStr evaluation.categories.clarity_completeness.feedback)
      "concise" = true)
    (hres : lowerStr evaluation.categories.problem_resolution.feedback =
      "provide more detail") :
    (validateEvaluation config evaluation responseText ticketData).categories.problem_resolution.feedback = "" ∧
    jsIncludes
        (lowerStr ((validateEvaluation config evaluation responseText
            ticketData).categories.problem_resolution.feedback))
        "more detail" = false := by
  have hmd : jsIncludes (lowerStr evaluation.categories.problem_resolution.feedback)
      "more detail" = true := by
    rw [hres]; decide
  have hdata : lowerList evaluation.categories.problem_resolution.feedback.data =
      lowerList ("provide more detail").data := by
    have h1 := congrArg String.data hres
    simpa [lowerStr] using h1
  have hrepl : trimStr (replaceAllCI "provide more detail"
      evaluation.categories.problem_resolution.feedback) = "" := by
    unfold trimStr replaceAllCI
    rw [replaceScanCI_all _ _ hdata]
    rfl
  have hfb : (validateEvaluation config evaluation responseText
      ticketData).categories.problem_resolution.feedback = "" := by
    cases hb : isServicesTag config ticketData.tags <;>
      simp [validateEvaluation, hclar, hmd, hb, hrepl]
  exact ⟨hfb, by rw [hfb]; decide⟩

/-- Witness for C7 amended at a concrete evaluation whose resolution
feedback is the phrase in mixed case. -/
theorem C7_contradiction_removal_amended_witness :
    (jsIncludes (lowerStr exactPhraseEvaluation.categories.clarity_completeness.feedback)
        "concise" = true ∧
      lowerStr exactPhraseEvaluation.categories.problem_resolution.feedback =
        "provide more detail") ∧
    (validateEvaluation emptyClassification exactPhraseEvaluation ""
        demoTicketPlain).categories.problem_resolution.feedback = "" :=
  ⟨⟨by decide, by decide⟩,
    (C7_contradiction_removal_amended emptyClassification exactPhraseEvaluation ""
      demoTicketPlain (by decide) (by decide)).1⟩

/-! ## C2 - cache-key injectivity in the response text -/

/-- The truncated fingerprint is a 32-bit value: it has at most
16 ^ 8 possible values. -/
theorem md5First8Nat_lt (msg : List Nat) : md5First8Nat msg < 16 ^ 8 := by
  have hpow : (16 : Nat) ^ 8 = 4294967296 := by norm_num
  rw [hpow]
  show (md5Words msg).1 % 256 * 16777216 + (md5Words msg).1 / 256 % 256 * 65536 +
      (md5Words msg).1 / 65536 % 256 * 256 + (md5Words msg).1 / 16777216 % 256 < 4294967296
  have h1 : (md5Words msg).1 % 256 < 256 := Nat.mod_lt _ (by norm_num)
  have h2 : (md5Words msg).1 / 256 % 256 < 256 := Nat.mod_lt _ (by norm_num)
  have h3 : (md5Words msg).1 / 65536 % 256 < 256 := Nat.mod_lt _ (by norm_num)
  have h4 : (md5Words msg).1 / 16777216 % 256 < 256 := Nat.mod_lt _ (by norm_num)
  omega

theorem hexChar_inj : ∀ m < 16, ∀ n < 16, hexChar m = hexChar n → m = n := by decide

theorem toHexFixed_inj :
    ∀ (k m n : Nat), m < 16 ^ k → n < 16 ^ k → toHexFixed k m = toHexFixed k n → m = n := by
  intro k
  induction k with
  | zero =>
    intro m n hm hn _
    simp [pow_zero] at hm hn
    omega
  | succ k ih =>
    intro m n hm hn h
    rw [toHexFixed, toHexFixed] at h
    have hd : hexChar (m / 16 ^ k) = hexChar (n / 16 ^ k) := by
      exact congrArg (fun l => l.headD 'x') h
    have htl : toHexFixed k (m % 16 ^ k) = toHexFixed k (n % 16 ^ k) := by
      exact congrArg List.tail h
    have hpos : 0 < (16 : Nat) ^ k := Nat.pos_pow_of_pos k (by norm_num)
    have hmd : m / 16 ^ k < 16 := by
      rw [Nat.div_lt_iff_lt_mul hpos]
      calc m < 16 ^ (k + 1) := hm
      _ = 16 * 16 ^ k := by ring
    have hnd : n / 16 ^ k < 16 := by
      rw [Nat.div_lt_iff_lt_mul hpos]
      calc n < 16 ^ (k + 1) := hn
      _ = 16 * 16 ^ k := by ring
    have hdiv : m / 16 ^ k = n / 16 ^ k := hexChar_inj _ hmd _ hnd hd
    have hmod : m % 16 ^ k = n % 16 ^ k :=
      ih _ _ (Nat.mod_lt _ hpos) (Nat.mod_lt _ hpos) htl
    calc m = 16 ^ k * (m / 16 ^ k) + m % 16 ^ k := (Nat.div_add_mod m (16 ^ k)).symm
    _ = 16 ^ k * (n / 16 ^ k) + n % 16 ^ k := by rw [hdiv, hmod]
    _ = n := Nat.div_add_mod n (16 ^ k)

/-- C2 counterexample: the cache key truncates the MD5 digest to its
first 8 hex characters, so the fingerprint ranges over at most 16 ^ 8
values while response texts are unbounded; by the pigeonhole principle
two distinct texts share a key for the same ticket, refuting the
claimed injectivity. -/
theorem C2_cache_key_counterexample :
    ¬ ∀ (ticketId : Nat) (text1 text2 : String), text1 ≠ text2 →
        deriveCacheKey ticketId text1 ≠ deriveCacheKey ticketId text2 := by
  intro h
  obtain ⟨s1, s2, hne, he⟩ :=
    Finite.exists_ne_map_eq_of_infinite
      (fun s : String => (⟨md5First8Nat (strBytes s), md5First8Nat_lt (strBytes s)⟩ : Fin (16 ^ 8)))
  have heq : md5First8Nat (strBytes s1) = md5First8Nat (strBytes s2) := congrArg Fin.val he
  exact h 1 s1 s2 hne (by unfold deriveCacheKey md5Hex8; rw [heq])

/-- C2 amended: the key derivation is deterministic and content
addressed through the truncated fingerprint - two keys for the same
ticket coincide exactly when the first-8-hex-character MD5 fingerprints
of the texts coincide.  Distinct texts with distinct fingerprints get
distinct keys, but the 32-bit truncation admits fingerprint collisions
(as the counterexample shows), so injectivity in the full text fails. -/
theorem C2_cache_key_amended (ticketId : Nat) (text1 text2 : String) :
    deriveCacheKey ticketId text1 = deriveCacheKey ticketId text2 ↔
      md5First8Nat (strBytes text1) = md5First8Nat (strBytes text2) := by
  constructor
  · intro h
    have hdata := congrArg String.data h
    simp [deriveCacheKey, md5Hex8, String.data_append] at hdata
    exact toHexFixed_inj 8 _ _ (md5First8Nat_lt _) (md5First8Nat_lt _) hdata
  · intro h
    unfold deriveCacheKey md5Hex8
    rw [h]

/-- Witness for C2 amended at concrete inputs. -/
theorem C2_cache_key_amended_witness :
    deriveCacheKey 42 "Thanks!" = deriveCacheKey 42 "Thank you!" ↔
      md5First8Nat (strBytes "Thanks!") = md5First8Nat (strBytes "Thank you!") :=
  C2_cache_key_amended 42 "Thanks!" "Thank you!"

/-! ## C1 - single-flight -/

/-- C1 counterexample: two process calls for the same unresolved key
that interleave across the asynchronous ledger lookup.  Both pass the
in-flight check before either has registered the key, so after the
schedule A-starts, B-starts, A-resumes, B-resumes the background
evaluation has been dispatched twice for the one key (both callers
still receive the processing placeholder), refuting the claimed
exactly-one-dispatch guarantee. -/
theorem C1_single_flight_counterexample :
    (runSchedule "2025-06-01" (fun _ => demoEvaluation) twoCallsWorld
        [.runCall 0, .runCall 1, .runCall 0, .runCall 1]).st.dispatched =
      [demoKey, demoKey] ∧
    (runSchedule "2025-06-01" (fun _ => demoEvaluation) twoCallsWorld
        [.runCall 0, .runCall 1, .runCall 0, .runCall 1]).calls.map PendingCall.phase =
      [.finished .processingMsg, .finished .processingMsg] := by
  decide

/-- One serialized orchestrator event preserves the single-flight
invariant. -/
theorem singleFlight_preserved_event (today : String)
    (compute : String → EvaluationResult) (st : OrchState) (ev : OrchEvent)
    (h : SingleFlightInv st) : SingleFlightInv (applyOrchEvent today compute st ev) := by
  cases ev with
  | webhookCall tid key =>
    show SingleFlightInv (processCall today tid key st).2
    cases hpe : processEarlyCheck st key with
    | cachedResult e => simpa [processCall, hpe] using h
    | alreadyProcessing => simpa [processCall, hpe] using h
    | needSheetsLookup =>
      obtain ⟨hcache, hrun⟩ := earlyCheck_needSheets hpe
      cases hsheet : checkGoogleSheets st.sheet today tid with
      | some e =>
        intro k
        obtain ⟨h1, h2, h3, h4⟩ := h k
        simp only [processCall, hpe, hsheet, processAfterLookup]
        refine ⟨h1, h2, h3, fun hk => ?_⟩
        rcases h4 hk with hl | hr
        · exact Or.inl hl
        · exact Or.inr (lookupCache_cacheSet_isSome key e hr)
      | none =>
        intro k
        obtain ⟨h1, h2, h3, h4⟩ := h k
        simp only [processCall, hpe, hsheet, processAfterLookup]
        by_cases hk : k = key
        · subst hk
          have hnotask : k ∉ st.activeTasks := fun hm => hrun (h2 hm)
          have hnodisp : k ∉ st.dispatched := by
            intro hm
            rcases h4 hm with hl | hr
            · exact hrun hl
            · rw [hcache] at hr; simp at hr
          refine ⟨?_, fun _ => List.mem_cons_self _ _, ?_, fun _ => Or.inl (List.mem_cons_self _ _)⟩
          · rw [List.count_cons_self, List.count_eq_zero.mpr hnotask]
          · rw [List.count_cons_self, List.count_eq_zero.mpr hnodisp]
        · refine ⟨?_, ?_, ?_, ?_⟩
          · rw [List.count_cons_of_ne hk]; exact h1
          · intro hm
            rcases List.mem_cons.mp hm with he | ht
            · exact absurd he hk
            · exact List.mem_cons_of_mem _ (h2 ht)
          · rw [List.count_cons_of_ne hk]; exact h3
          · intro hm
            rcases List.mem_cons.mp hm with he | ht
            · exact absurd he hk
            · rcases h4 ht with hl | hr
              · exact Or.inl (List.mem_cons_of_mem _ hl)
              · exact Or.inr hr
  | taskCompletion key =>
    show SingleFlightInv (completeBackgroundTask compute key st)
    by_cases hmem : key ∈ st.activeTasks
    · intro k
      obtain ⟨h1, h2, h3, h4⟩ := h k
      simp only [completeBackgroundTask, hmem, if_pos]
      refine ⟨?_, ?_, h3, ?_⟩
      · exact le_trans ((List.erase_sublist key st.activeTasks).count_le k) h1
      · intro hk
        by_cases hkk : k = key
        · subst hkk
          have : (st.activeTasks.erase k).count k = 0 := by
            rw [List.count_erase_self]
            have hone : 0 < st.activeTasks.count k :=
              List.count_pos_iff.mpr hmem
            omega
          exact absurd hk (List.count_eq_zero.mp this)
        · exact (List.mem_erase_of_ne hkk).mpr (h2 (List.mem_of_mem_erase hk))
      · intro hk
        by_cases hkk : k = key
        · subst hkk
          refine Or.inr ?_
          simp [cacheSet, lookupCache]
        · rcases h4 hk with hl | hr
          · exact Or.inl ((List.mem_erase_of_ne hkk).mpr hl)
          · exact Or.inr (lookupCache_cacheSet_isSome key _ hr)
    · simpa [completeBackgroundTask, hmem] using h

/-- C1 amended: for serialized process calls - calls that do not
interleave across the asynchronous ledger lookup - together with
background-task completions, the single-flight invariant is preserved
from any state satisfying it: per cache key at most one background
evaluation is ever active (and at most one is ever dispatched, later
calls for the key observing the in-flight set or the populated cache
and returning the placeholder or the cached result instead).  The
guarantee fails only for calls interleaving across the ledger lookup,
as the counterexample shows. -/
theorem C1_single_flight_amended (today : String)
    (compute : String → EvaluationResult) (events : List OrchEvent) (st : OrchState)
    (h : SingleFlightInv st) :
    SingleFlightInv (applyOrchEvents today compute st events) := by
  induction events generalizing st with
  | nil => exact h
  | cons ev evs ih =>
    exact ih _ (singleFlight_preserved_event today compute st ev h)

/-- Witness for C1 amended: the invariant holds after a concrete
serialized schedule (dispatch, redelivered webhook, completion) from
the empty orchestrator state. -/
theorem C1_single_flight_amended_witness :
    SingleFlightInv (applyOrchEvents "2025-06-01" (fun _ => demoEvaluation) emptyOrchState
      [.webhookCall (.num 42) demoKey, .webhookCall (.num 42) demoKey,
       .taskCompletion demoKey]) :=
  C1_single_flight_amended "2025-06-01" (fun _ => demoEvaluation)
    [.webhookCall (.num 42) demoKey, .webhookCall (.num 42) demoKey,
     .taskCompletion demoKey] emptyOrchState
    (by intro k; simp [emptyOrchState, lookupCache])
